import Mathlib

/-!
Shallow embedding of the MTG EDH deckbuilder (deckbuilder.py): CSV row loading,
set-code resolution, row↔card matching, greedy batch resolution, commander
detection and deck validation, together with theorems settling the spec claims.
-/

set_option maxRecDepth 10000

namespace Deckbuilder

/-- Python `str.lower()` (ASCII model). -/
def strLower (s : String) : String := String.mk (s.data.map Char.toLower)

/-- Python `str.strip()`: drop leading and trailing whitespace. -/
def pyStrip (s : String) : String :=
  String.mk (((s.data.dropWhile Char.isWhitespace).reverse.dropWhile
    Char.isWhitespace).reverse)

/-- Does the first string start with the second? -/
def strStartsWith (s pre : String) : Bool := List.isPrefixOf pre.data s.data

/-- Lexicographic comparison of char lists (Python string `<=`). -/
def charListLe : List Char → List Char → Bool
  | [], _ => true
  | _ :: _, [] => false
  | a :: as, b :: bs => if a < b then true else if b < a then false else charListLe as bs

/-- String `<=` via code points, as Python compares strings. -/
def strLeB (a b : String) : Bool := charListLe a.toList b.toList

/-- Does `sub` occur as a contiguous sublist of the second argument? -/
def charsContain (sub : List Char) : List Char → Bool
  | [] => sub.isEmpty
  | c :: t => List.isPrefixOf sub (c :: t) || charsContain sub t

/-- Python `sub in hay` substring containment. -/
def strContains (hay sub : String) : Bool := charsContain sub.toList hay.toList

/-- Insert into a sorted list of strings. -/
def insertSorted (x : String) : List String → List String
  | [] => [x]
  | y :: t => if strLeB x y then x :: y :: t else y :: insertSorted x t

/-- Insertion sort on strings. -/
def sortStrs : List String → List String
  | [] => []
  | x :: t => insertSorted x (sortStrs t)

/-- Python `sorted(set(l))`: unique elements in ascending order. -/
def pySortedSet (l : List String) : List String := sortStrs l.dedup

/-- Python `str(x)` on an optional string: `None` prints as "None". -/
def pyStr : Option String → String
  | none => "None"
  | some s => s

/-- Python truthiness of an optional string: `None` and `""` are falsy. -/
def optTruthy : Option String → Bool
  | none => false
  | some s => s ≠ ""

/-- Python `repr` of a list of strings, as an f-string renders it. -/
def pyListRepr (l : List String) : String :=
  "[" ++ String.intercalate ", " (l.map (fun s => "\x27" ++ s ++ "\x27")) ++ "]"

/-- One row of the input CSV (dataclass `CsvRow`). -/
structure CsvRow where
  name : String
  set_input : Option String := none
  quantity : Nat := 1
  card_number : Option String := none
  scryfall_id : Option String := none
  is_commander : Bool := false
deriving Repr, DecidableEq

/-- Default row used only for in-range list indexing. -/
def dummyRow : CsvRow := { name := "" }

/-- A resolved card (dataclass `Card`). The legality map is an association list. -/
structure Card where
  name : String
  set : Option String
  collector_number : Option String
  type_line : String
  color_identity : List String
  legalities : List (String × String)
  oracle_text : String
  keywords : List String
  is_basic_land : Bool
deriving Repr, DecidableEq

/-- A raw Scryfall card object: the JSON dict fields the program reads,
each possibly absent. -/
structure ScryObj where
  id : Option String := none
  name : Option String := none
  set : Option String := none
  collector_number : Option String := none
  type_line : Option String := none
  color_identity : Option (List String) := none
  legalities : Option (List (String × String)) := none
  oracle_text : Option String := none
  keywords : Option (List String) := none
deriving Repr, DecidableEq

/-- One entry of the Scryfall sets directory: the fields the program reads. -/
structure SetInfo where
  name : Option String := none
  code : Option String := none
deriving Repr, DecidableEq

/-- Result of `validate_deck` (dataclass `DeckValidation`). -/
structure DeckValidation where
  issues : List String
  warnings : List String
  deck_size : Nat
  commander_names : List String
  commander_color_id : List String
deriving Repr, DecidableEq

/-- `ALLOWED_DUP_EXCEPTIONS`: names permitted unlimited copies. -/
def ALLOWED_DUP_EXCEPTIONS : List String := ["Relentless Rats", "Shadowborn Apostle"]

/-- Python `dict.get(k)` on an association list. -/
def dictGet (d : List (String × String)) (k : String) : Option String :=
  (d.find? (fun p => p.1 == k)).map (fun p => p.2)

/-- `Card.from_scryfall`: build a `Card` from a raw Scryfall object,
defaulting absent fields as the Python `d.get(..., default)` calls do. -/
def Card.from_scryfall (d : ScryObj) : Card :=
  { name := d.name.getD ""
    set := d.set
    collector_number := d.collector_number
    type_line := d.type_line.getD ""
    color_identity := d.color_identity.getD []
    legalities := d.legalities.getD []
    oracle_text := d.oracle_text.getD ""
    keywords := d.keywords.getD []
    is_basic_land := strContains (d.type_line.getD "") "Basic Land" }

/-! ### CSV loading (`load_csv`) -/

/-- Digits of a nonempty all-digit char list as a number, else `none`. -/
def digitsToNat (l : List Char) : Option Nat :=
  if l ≠ [] ∧ l.all Char.isDigit then
    some (l.foldl (fun a c => a * 10 + (c.toNat - 48)) 0)
  else none

/-- Python `int(s)` on a stripped decimal string: optional sign then digits,
anything else raises (modelled as `none`). -/
def pyInt (s : String) : Option Int :=
  match (pyStrip s).toList with
  | '+' :: t => (digitsToNat t).map Int.ofNat
  | '-' :: t => (digitsToNat t).map (fun n => -(n : Int))
  | t => (digitsToNat t).map Int.ofNat

/-- One raw CSV record: the cell of each recognised column, `none` when the
column is absent or the cell missing. -/
structure RawRow where
  name_cell : Option String := none
  set_cell : Option String := none
  qty_cell : Option String := none
  num_cell : Option String := none
  id_cell : Option String := none
deriving Repr, DecidableEq

/-- `(cell or "1")`: Python's falsy coalescing of a quantity cell. -/
def qtyCellOrOne : Option String → String
  | none => "1"
  | some s => if s = "" then "1" else s

/-- An optional cell stripped, empty coalesced to `None`
(Python `(raw.get(h) or "").strip() or None`). -/
def cellOrNone (c : Option String) : Option String :=
  let s := pyStrip (c.getD "")
  if s = "" then none else some s

/-- The body of `load_csv`'s row loop for one record at CSV line `i`:
`ok none` when the row is skipped (blank name), `error` on a bad quantity. -/
def load_row (hasQty : Bool) (i : Nat) (raw : RawRow) : Except String (Option CsvRow) :=
  let name := pyStrip (raw.name_cell.getD "")
  if name = "" then Except.ok none
  else
    let qtyRes : Except String Nat :=
      if hasQty then
        let v := pyStrip (qtyCellOrOne raw.qty_cell)
        match pyInt v with
        | some n => Except.ok (max 1 n).toNat
        | none =>
            Except.error ("Row " ++ toString i ++ ": invalid Quantity \x27" ++ v ++
              "\x27 for \x27" ++ name ++ "\x27")
      else Except.ok 1
    match qtyRes with
    | Except.error e => Except.error e
    | Except.ok qty =>
        Except.ok (some
          { name := name
            set_input := cellOrNone raw.set_cell
            quantity := qty
            card_number := cellOrNone raw.num_cell
            scryfall_id := cellOrNone raw.id_cell })

/-- The row loop of `load_csv`, starting at CSV line number `i`. -/
def load_rows (hasQty : Bool) : Nat → List RawRow → Except String (List CsvRow)
  | _, [] => Except.ok []
  | i, raw :: t =>
    match load_row hasQty i raw with
    | Except.error e => Except.error e
    | Except.ok none => load_rows hasQty (i + 1) t
    | Except.ok (some r) =>
        match load_rows hasQty (i + 1) t with
        | Except.error e => Except.error e
        | Except.ok rs => Except.ok (r :: rs)

/-- `load_csv` over an already-parsed record list (header handling is the
caller's concern; `hasQty` says whether a Quantity column exists). -/
def load_csv (hasQty : Bool) (raws : List RawRow) : Except String (List CsvRow) :=
  match load_rows hasQty 2 raws with
  | Except.error e => Except.error e
  | Except.ok [] => Except.error "No rows found in CSV."
  | Except.ok rs => Except.ok rs

/-! ### Set-code resolution and matching -/

/-- `resolve_set_code`: a 3–5 character alphanumeric token is taken directly as
a (lowercased) set code; otherwise the sets directory is searched by exact
case-insensitive name, then by case-insensitive substring containment. -/
def resolve_set_code (sets : List SetInfo) (set_input : Option String) : Option String :=
  if optTruthy set_input = false then none
  else
    let s := pyStrip (set_input.getD "")
    if 2 < s.length ∧ s.length ≤ 5 ∧ s.toList.all Char.isAlphanum ∧ strContains s " " = false
    then some (strLower s)
    else
      match sets.find? (fun st => strLower (st.name.getD "") == strLower s) with
      | some st => st.code
      | none =>
          match sets.find? (fun st => strContains (strLower (st.name.getD "")) (strLower s)) with
          | some st => st.code
          | none => none

/-- `_row_matches_card`: heuristic match between a requested row and a returned
Scryfall card, in priority order id, set+number, name(+set). -/
def _row_matches_card (sets : List SetInfo) (row : CsvRow) (card_obj : ScryObj) : Bool :=
  if optTruthy row.scryfall_id && card_obj.id == row.scryfall_id then true
  else
    let set_code := resolve_set_code sets row.set_input
    if optTruthy set_code && optTruthy row.card_number &&
        card_obj.set == set_code &&
        pyStr card_obj.collector_number == pyStr row.card_number then true
    else if strLower (card_obj.name.getD "") == strLower row.name then
      (if optTruthy set_code then card_obj.set == set_code else true)
    else false

/-- A Scryfall collection lookup key. -/
inductive Identifier where
  | id (v : String)
  | setNum (set : String) (collector_number : String)
  | nameSet (name : String) (set : String)
  | nameOnly (name : String)
deriving Repr, DecidableEq

/-- The identifier `build_identifiers` emits for one row:
priority id, then (set, number), then (name, set), then (name). -/
def build_identifier (sets : List SetInfo) (r : CsvRow) : Identifier :=
  if optTruthy r.scryfall_id then Identifier.id (r.scryfall_id.getD "")
  else
    let set_code := resolve_set_code sets r.set_input
    if optTruthy set_code && optTruthy r.card_number then
      Identifier.setNum (set_code.getD "") (r.card_number.getD "")
    else if optTruthy set_code then Identifier.nameSet r.name (set_code.getD "")
    else Identifier.nameOnly r.name

/-- `build_identifiers`: one lookup key per row, in row order. -/
def build_identifiers (sets : List SetInfo) (rows : List CsvRow) : List Identifier :=
  rows.map (build_identifier sets)

/-! ### Greedy batch resolution (`fetch_cards` inner loop) -/

/-- The inner loop of `fetch_cards` for one returned card object: scan the
unresolved indices in order, skip already-resolved rows, and assign the card to
the first row the matcher accepts. -/
def greedy_step (sets : List SetInfo) (rows : List CsvRow) (card_obj : ScryObj) :
    List Nat → (Nat → Option Card) → (Nat → Option Card)
  | [], result => result
  | idx :: rest, result =>
    if (result idx).isSome then greedy_step sets rows card_obj rest result
    else if _row_matches_card sets (rows.getD idx dummyRow) card_obj then
      fun j => if j = idx then some (Card.from_scryfall card_obj) else result j
    else greedy_step sets rows card_obj rest result

/-- The loop of `fetch_cards` over one batch's returned card objects. -/
def greedy_batch (sets : List SetInfo) (rows : List CsvRow) (unresolved : List Nat)
    (result : Nat → Option Card) (objs : List ScryObj) : Nat → Option Card :=
  objs.foldl (fun acc obj => greedy_step sets rows obj unresolved acc) result

/-- `unresolved_indices = list(range(i, min(i + len(batch), len(rows))))`. -/
def batch_indices (rows : List CsvRow) (i batchLen : Nat) : List Nat :=
  List.range' i (min (i + batchLen) rows.length - i)

/-! ### Commander rules checks -/

/-- `_has_partner`: a keyword beginning with "partner" (case-insensitively), or
oracle text containing "partner" or "friends forever". -/
def _has_partner (c : Card) : Bool :=
  if c.keywords.any (fun k => strStartsWith (strLower k) "partner") then true
  else
    let text := strLower c.oracle_text
    strContains text "partner" || strContains text "friends forever"

/-- `_is_eligible_commander`: a Legendary Creature type line, or oracle text
containing "can be your commander". -/
def _is_eligible_commander (c : Card) : Bool :=
  if strContains c.type_line "Legendary Creature" then true
  else if strContains (strLower c.oracle_text) "can be your commander" then true
  else false

/-- The enumeration loop of `detect_commanders`, carrying the current index. -/
def detect_aux (m : Nat → Option Card) : Nat → List CsvRow → List Card
  | _, [] => []
  | idx, r :: t =>
    if r.is_commander then
      match m idx with
      | some c => c :: detect_aux m (idx + 1) t
      | none => detect_aux m (idx + 1) t
    else detect_aux m (idx + 1) t

/-- `detect_commanders`: resolved cards of rows flagged as commander. -/
def detect_commanders (rows : List CsvRow) (m : Nat → Option Card) : List Card :=
  detect_aux m 0 rows

/-! ### Deck validation (`validate_deck`) -/

/-- Issue string for an unresolved row. -/
def unresolvedMsg (r : CsvRow) : String :=
  "Card could not be resolved on Scryfall: \x27" ++ r.name ++ "\x27 (set \x27" ++
    pyStr r.set_input ++ "\x27 number \x27" ++ pyStr r.card_number ++ "\x27)"

/-- Issue string when no commander is specified. -/
def noCommanderMsg : String :=
  "No commander specified. Add --commander \x27Name\x27 or two names for partners."

/-- Issue string for a possibly ineligible single commander. -/
def eligMsg (name : String) : String :=
  "Commander \x27" ++ name ++
    "\x27 may not be eligible (not a Legendary Creature or explicitly allowed)."

/-- Issue string for a partner-less commander pair. -/
def partnerMsg : String :=
  "Two commanders detected, but they don\x27t both have Partner/Friends forever."

/-- Issue string for more than two commanders. -/
def tooManyMsg : String :=
  "More than two commanders marked. EDH supports one (or two with Partner)."

/-- Issue string for a wrong deck size. -/
def sizeMsg (total : Nat) : String :=
  "Deck must contain exactly 100 total cards including commander(s); found " ++
    toString total ++ "."

/-- Issue string for a banned card. -/
def bannedMsg (name : String) : String := "BANNED in Commander: " ++ name

/-- Warning string for a non-legal status. -/
def notLegalMsg (status : Option String) (name : String) : String :=
  "Not legal in Commander (status " ++ pyStr status ++ "): " ++ name

/-- Issue string for a singleton violation. -/
def singletonMsg (name : String) (count : Nat) : String :=
  "Singleton violation: " ++ name ++ " appears " ++ toString count ++ " times."

/-- Issue string for a color-identity violation. -/
def colorMsg (name : String) (ci commanderColors : List String) : String :=
  "Color identity mismatch: " ++ name ++ " has " ++ pyListRepr ci ++
    " not within commander identity " ++ pyListRepr commanderColors ++ "."

/-- `name_counts` of `validate_deck`: total quantity across rows of one name
(absent names count 0, as `dict.get(name, 0)` does). -/
def name_count (rows : List CsvRow) (n : String) : Nat :=
  ((rows.filter (fun r => r.name == n)).map (fun r => r.quantity)).sum

/-- `total_cards = sum(r.quantity for r in rows)`. -/
def total_quantity (rows : List CsvRow) : Nat :=
  (rows.map (fun r => r.quantity)).sum

/-- The commander-cardinality branch of `validate_deck`: its issues and the
commander color identity. -/
def commander_block (commanders : List Card) : List String × List String :=
  match commanders with
  | [] => ([noCommanderMsg], [])
  | [c] =>
      ((if _is_eligible_commander c then [] else [eligMsg c.name]),
        pySortedSet c.color_identity)
  | [c1, c2] =>
      ((if _has_partner c1 && _has_partner c2 then [] else [partnerMsg]),
        pySortedSet (c1.color_identity ++ c2.color_identity))
  | _ => ([tooManyMsg], [])

/-- The deck-size check of `validate_deck`. -/
def size_block (total : Nat) : List String :=
  if total ≠ 100 then [sizeMsg total] else []

/-- The commander-legality check of `validate_deck` for one resolved card:
(issues, warnings). -/
def legality_check (c : Card) : List String × List String :=
  let legality := dictGet c.legalities "commander"
  if legality == some "banned" then ([bannedMsg c.name], [])
  else if legality == some "legal" || legality == some "restricted" then ([], [])
  else ([], [notLegalMsg legality c.name])

/-- The singleton check of `validate_deck` for one resolved card. -/
def singleton_check (nc : String → Nat) (c : Card) : List String :=
  if !(c.is_basic_land || decide (c.name ∈ ALLOWED_DUP_EXCEPTIONS)) then
    if nc c.name > 1 then [singletonMsg c.name (nc c.name)] else []
  else []

/-- The color-identity check of `validate_deck` for one resolved card. -/
def color_check (commanderColors : List String) (c : Card) : List String :=
  if commanderColors ≠ [] then
    if !(c.color_identity.all (fun x => x ∈ commanderColors)) then
      [colorMsg c.name (pySortedSet c.color_identity) commanderColors]
    else []
  else []

/-- The per-row body of `validate_deck`'s main loop: an unresolved row yields
exactly its resolution issue; a resolved card goes through legality, singleton
and color-identity checks in that order. -/
def row_check (commanderColors : List String) (nc : String → Nat) (r : CsvRow)
    (oc : Option Card) : List String × List String :=
  match oc with
  | none => ([unresolvedMsg r], [])
  | some c =>
      let lc := legality_check c
      (lc.1 ++ singleton_check nc c ++ color_check commanderColors c, lc.2)

/-- `validate_deck`'s main loop over `enumerate(rows)`, from index `idx`. -/
def per_row_checks (commanderColors : List String) (nc : String → Nat)
    (m : Nat → Option Card) : Nat → List CsvRow → List (List String × List String)
  | _, [] => []
  | idx, r :: t =>
      row_check commanderColors nc r (m idx) ::
        per_row_checks commanderColors nc m (idx + 1) t

/-- `validate_deck`: commander checks, size check, then per-row checks in row
order, issues and warnings accumulated in emission order. -/
def validate_deck (rows : List CsvRow) (m : Nat → Option Card) : DeckValidation :=
  let commanders := detect_commanders rows m
  let cmd := commander_block commanders
  let total_cards := total_quantity rows
  let per := per_row_checks cmd.2 (name_count rows) m 0 rows
  { issues := cmd.1 ++ size_block total_cards ++ (per.map (fun p => p.1)).flatten
    warnings := (per.map (fun p => p.2)).flatten
    deck_size := total_cards
    commander_names := commanders.map (fun c => c.name)
    commander_color_id := cmd.2 }

/-! ### Helper lemmas -/

theorem mem_insertSorted (a x : String) (l : List String) :
    a ∈ insertSorted x l ↔ a = x ∨ a ∈ l := by
  induction l with
  | nil => simp [insertSorted]
  | cons y t ih =>
      by_cases h : strLeB x y = true
      · simp [insertSorted, h]
      · simp only [insertSorted, if_neg h, List.mem_cons, ih]
        tauto

theorem mem_sortStrs (a : String) (l : List String) : a ∈ sortStrs l ↔ a ∈ l := by
  induction l with
  | nil => simp [sortStrs]
  | cons x t ih => simp [sortStrs, mem_insertSorted, ih]

theorem mem_pySortedSet (a : String) (l : List String) : a ∈ pySortedSet l ↔ a ∈ l := by
  simp [pySortedSet, mem_sortStrs, List.mem_dedup]

theorem charsContain_suffix (l1 l2 : List Char) : charsContain l2 (l1 ++ l2) = true := by
  induction l1 with
  | nil =>
      cases l2 with
      | nil => simp [charsContain]
      | cons c t =>
          simp only [List.nil_append, charsContain, Bool.or_eq_true]
          exact Or.inl (by simp [List.isPrefixOf_iff_prefix])
  | cons c t ih =>
      simp only [List.cons_append, charsContain, Bool.or_eq_true]
      exact Or.inr ih

theorem strContains_append_right (pre s : String) : strContains (pre ++ s) s = true := by
  have h : (pre ++ s).toList = pre.toList ++ s.toList := by
    simp [String.toList, String.data_append]
  simp only [strContains, h]
  exact charsContain_suffix pre.toList s.toList

theorem head?_string_append (pre t : String) (c : Char)
    (h : pre.data.head? = some c) : (pre ++ t).data.head? = some c := by
  rw [String.data_append]
  cases hd : pre.data with
  | nil => rw [hd] at h; cases h
  | cons a l =>
      rw [hd] at h
      cases h
      rfl

theorem head_eligMsg (n : String) : (eligMsg n).data.head? = some 'C' :=
  head?_string_append _ _ _ (head?_string_append _ _ _ (by decide))

theorem head_sizeMsg (k : Nat) : (sizeMsg k).data.head? = some 'D' :=
  head?_string_append _ _ _ (head?_string_append _ _ _ (by decide))

theorem head_unresolvedMsg (r : CsvRow) : (unresolvedMsg r).data.head? = some 'C' :=
  head?_string_append _ _ _ (head?_string_append _ _ _ (head?_string_append _ _ _
    (head?_string_append _ _ _ (head?_string_append _ _ _ (head?_string_append _ _ _
      (by decide))))))

theorem head_bannedMsg (n : String) : (bannedMsg n).data.head? = some 'B' :=
  head?_string_append _ _ _ (by decide)

theorem head_singletonMsg (n : String) (k : Nat) :
    (singletonMsg n k).data.head? = some 'S' :=
  head?_string_append _ _ _ (head?_string_append _ _ _ (head?_string_append _ _ _
    (head?_string_append _ _ _ (by decide))))

theorem head_colorMsg (n : String) (ci cc : List String) :
    (colorMsg n ci cc).data.head? = some 'C' :=
  head?_string_append _ _ _ (head?_string_append _ _ _ (head?_string_append _ _ _
    (head?_string_append _ _ _ (head?_string_append _ _ _ (head?_string_append _ _ _
      (by decide))))))

theorem mem_commander_block_inv (cs : List Card) (s : String)
    (h : s ∈ (commander_block cs).1) :
    s = noCommanderMsg ∨ (∃ n, s = eligMsg n) ∨ s = partnerMsg ∨ s = tooManyMsg := by
  match cs with
  | [] =>
      simp [commander_block] at h
      exact Or.inl h
  | [c] =>
      by_cases he : _is_eligible_commander c = true
      · simp [commander_block, he] at h
      · simp only [commander_block] at h
        rw [if_neg he] at h
        simp at h
        exact Or.inr (Or.inl ⟨c.name, h⟩)
  | [c1, c2] =>
      by_cases hp : (_has_partner c1 && _has_partner c2) = true
      · simp [commander_block, hp] at h
      · simp only [commander_block] at h
        rw [if_neg hp] at h
        simp at h
        exact Or.inr (Or.inr (Or.inl h))
  | c1 :: c2 :: c3 :: t =>
      simp [commander_block] at h
      exact Or.inr (Or.inr (Or.inr h))

theorem mem_row_check_fst_inv (cc : List String) (nc : String → Nat) (r : CsvRow)
    (oc : Option Card) (s : String) (h : s ∈ (row_check cc nc r oc).1) :
    (∃ r', s = unresolvedMsg r') ∨ (∃ n, s = bannedMsg n) ∨
      (∃ n k, s = singletonMsg n k) ∨ (∃ n ci cc', s = colorMsg n ci cc') := by
  cases oc with
  | none =>
      simp [row_check] at h
      exact Or.inl ⟨r, h⟩
  | some c =>
      simp only [row_check, List.mem_append] at h
      rcases h with (h | h) | h
      · unfold legality_check at h
        by_cases hb : (dictGet c.legalities "commander" == some "banned") = true
        · rw [if_pos hb] at h
          simp at h
          exact Or.inr (Or.inl ⟨c.name, h⟩)
        · rw [if_neg hb] at h
          by_cases hl : (dictGet c.legalities "commander" == some "legal" ||
              dictGet c.legalities "commander" == some "restricted") = true
          · rw [if_pos hl] at h; simp at h
          · rw [if_neg hl] at h; simp at h
      · unfold singleton_check at h
        by_cases hx : (!(c.is_basic_land || decide (c.name ∈ ALLOWED_DUP_EXCEPTIONS))) = true
        · rw [if_pos hx] at h
          by_cases hk : nc c.name > 1
          · rw [if_pos hk] at h
            simp at h
            exact Or.inr (Or.inr (Or.inl ⟨c.name, nc c.name, h⟩))
          · rw [if_neg hk] at h; simp at h
        · rw [if_neg hx] at h; simp at h
      · unfold color_check at h
        by_cases hx : cc ≠ []
        · rw [if_pos hx] at h
          by_cases hy : (!(c.color_identity.all fun x => decide (x ∈ cc))) = true
          · rw [if_pos hy] at h
            simp at h
            exact Or.inr (Or.inr (Or.inr ⟨c.name, pySortedSet c.color_identity, cc, h⟩))
          · rw [if_neg hy] at h; simp at h
        · rw [if_neg hx] at h; simp at h

theorem mem_per_row_fst_inv (cc : List String) (nc : String → Nat)
    (m : Nat → Option Card) :
    ∀ (rows : List CsvRow) (start : Nat) (s : String),
      s ∈ ((per_row_checks cc nc m start rows).map (fun p => p.1)).flatten →
      ∃ r oc, s ∈ (row_check cc nc r oc).1 := by
  intro rows
  induction rows with
  | nil => intro start s h; simp [per_row_checks] at h
  | cons r t ih =>
      intro start s h
      simp only [per_row_checks, List.map_cons, List.flatten_cons,
        List.mem_append] at h
      rcases h with h | h
      · exact ⟨r, m start, h⟩
      · exact ih (start + 1) s h

theorem validate_issues_def (rows : List CsvRow) (m : Nat → Option Card) :
    (validate_deck rows m).issues =
      (commander_block (detect_commanders rows m)).1 ++
        size_block (total_quantity rows) ++
        ((per_row_checks (commander_block (detect_commanders rows m)).2
            (name_count rows) m 0 rows).map (fun p => p.1)).flatten := rfl

theorem validate_warnings_def (rows : List CsvRow) (m : Nat → Option Card) :
    (validate_deck rows m).warnings =
      ((per_row_checks (commander_block (detect_commanders rows m)).2
          (name_count rows) m 0 rows).map (fun p => p.2)).flatten := rfl

theorem validate_color_id_def (rows : List CsvRow) (m : Nat → Option Card) :
    (validate_deck rows m).commander_color_id =
      (commander_block (detect_commanders rows m)).2 := rfl

theorem mem_per_row_fst (cc : List String) (nc : String → Nat) (m : Nat → Option Card)
    (rows : List CsvRow) :
    ∀ (start idx : Nat) (r : CsvRow) (s : String), rows.get? idx = some r →
      s ∈ (row_check cc nc r (m (start + idx))).1 →
      s ∈ ((per_row_checks cc nc m start rows).map (fun p => p.1)).flatten := by
  induction rows with
  | nil => intro start idx r s h; simp at h
  | cons r0 t ih =>
      intro start idx r s h hs
      cases idx with
      | zero =>
          simp only [List.get?] at h
          cases h
          simp only [per_row_checks, List.map_cons, List.flatten_cons, List.mem_append]
          exact Or.inl hs
      | succ k =>
          simp only [List.get?] at h
          have harith : start + (k + 1) = (start + 1) + k := by omega
          rw [harith] at hs
          have := ih (start + 1) k r s h hs
          simp only [per_row_checks, List.map_cons, List.flatten_cons, List.mem_append]
          exact Or.inr this

theorem mem_per_row_snd (cc : List String) (nc : String → Nat) (m : Nat → Option Card)
    (rows : List CsvRow) :
    ∀ (start idx : Nat) (r : CsvRow) (s : String), rows.get? idx = some r →
      s ∈ (row_check cc nc r (m (start + idx))).2 →
      s ∈ ((per_row_checks cc nc m start rows).map (fun p => p.2)).flatten := by
  induction rows with
  | nil => intro start idx r s h; simp at h
  | cons r0 t ih =>
      intro start idx r s h hs
      cases idx with
      | zero =>
          simp only [List.get?] at h
          cases h
          simp only [per_row_checks, List.map_cons, List.flatten_cons, List.mem_append]
          exact Or.inl hs
      | succ k =>
          simp only [List.get?] at h
          have harith : start + (k + 1) = (start + 1) + k := by omega
          rw [harith] at hs
          have := ih (start + 1) k r s h hs
          simp only [per_row_checks, List.map_cons, List.flatten_cons, List.mem_append]
          exact Or.inr this

theorem mem_issues_of_row (rows : List CsvRow) (m : Nat → Option Card) (idx : Nat)
    (r : CsvRow) (s : String) (h : rows.get? idx = some r)
    (hs : s ∈ (row_check (commander_block (detect_commanders rows m)).2
        (name_count rows) r (m idx)).1) :
    s ∈ (validate_deck rows m).issues := by
  rw [validate_issues_def]
  refine List.mem_append_right _ ?_
  have h0 : (0 : Nat) + idx = idx := by omega
  have := mem_per_row_fst (commander_block (detect_commanders rows m)).2
    (name_count rows) m rows 0 idx r s h (by rw [h0]; exact hs)
  simpa using this

theorem mem_warnings_of_row (rows : List CsvRow) (m : Nat → Option Card) (idx : Nat)
    (r : CsvRow) (s : String) (h : rows.get? idx = some r)
    (hs : s ∈ (row_check (commander_block (detect_commanders rows m)).2
        (name_count rows) r (m idx)).2) :
    s ∈ (validate_deck rows m).warnings := by
  rw [validate_warnings_def]
  have h0 : (0 : Nat) + idx = idx := by omega
  exact mem_per_row_snd (commander_block (detect_commanders rows m)).2
    (name_count rows) m rows 0 idx r s h (by rw [h0]; exact hs)

/-! ### Claim theorems -/

theorem sizeMsg_mem_issues_iff (rows : List CsvRow) (m : Nat → Option Card) :
    sizeMsg (total_quantity rows) ∈ (validate_deck rows m).issues ↔
      total_quantity rows ≠ 100 := by
  constructor
  · intro h
    intro heq
    rw [validate_issues_def] at h
    have hsize : size_block (total_quantity rows) = [] := by simp [size_block, heq]
    rw [hsize] at h
    have hd := head_sizeMsg (total_quantity rows)
    simp only [List.append_nil, List.mem_append] at h
    rcases h with hmem | hmem
    · rcases mem_commander_block_inv _ _ hmem with h1 | ⟨n, h1⟩ | h1 | h1
      · rw [h1] at hd; exact absurd hd (by decide)
      · rw [h1, head_eligMsg] at hd; simp at hd
      · rw [h1] at hd; exact absurd hd (by decide)
      · rw [h1] at hd; exact absurd hd (by decide)
    · obtain ⟨r, oc, hrc⟩ := mem_per_row_fst_inv _ _ m rows 0 _ hmem
      rcases mem_row_check_fst_inv _ _ _ _ _ hrc with
        ⟨r', h1⟩ | ⟨n, h1⟩ | ⟨n, k, h1⟩ | ⟨n, ci, cc', h1⟩
      · rw [h1, head_unresolvedMsg] at hd; simp at hd
      · rw [h1, head_bannedMsg] at hd; simp at hd
      · rw [h1, head_singletonMsg] at hd; simp at hd
      · rw [h1, head_colorMsg] at hd; simp at hd
  · intro h
    rw [validate_issues_def]
    refine List.mem_append_left _ (List.mem_append_right _ ?_)
    simp [size_block, h]

/-- C5: for every deck, the reported deck size equals the sum of all row
quantities, and the blocking deck-size issue citing that exact total is in the
validator's issue list exactly when the sum differs from 100 (the size check
itself emits it exactly then, and emits nothing at 100). -/
theorem deck_size_rule (rows : List CsvRow) (m : Nat → Option Card) :
    (validate_deck rows m).deck_size = (rows.map (fun r => r.quantity)).sum ∧
    (size_block (total_quantity rows) = [sizeMsg (total_quantity rows)] ↔
      total_quantity rows ≠ 100) ∧
    (total_quantity rows = 100 → size_block (total_quantity rows) = []) ∧
    (sizeMsg (total_quantity rows) ∈ (validate_deck rows m).issues ↔
      total_quantity rows ≠ 100) := by
  refine ⟨rfl, ?_, ?_, sizeMsg_mem_issues_iff rows m⟩
  · by_cases h : total_quantity rows = 100 <;> simp [size_block, h]
  · intro h; simp [size_block, h]

/-- C5 witness: a one-row deck of quantity 7 reports size 7 and carries the
deck-size issue. -/
theorem deck_size_rule_witness :
    sizeMsg (total_quantity [{ name := "Forest", quantity := 7 }]) ∈
      (validate_deck [{ name := "Forest", quantity := 7 }] (fun _ => none)).issues :=
  (deck_size_rule [{ name := "Forest", quantity := 7 }] (fun _ => none)).2.2.2.mpr
    (by decide)

/-- C10: a row with no resolved card contributes exactly one blocking
resolution issue naming its input fields and nothing else — no legality,
singleton or color check output and no warning; that issue is in the
validator's issue list. -/
theorem unresolved_row_rule (rows : List CsvRow) (m : Nat → Option Card)
    (idx : Nat) (r : CsvRow) (h1 : rows.get? idx = some r) (h2 : m idx = none) :
    (∀ cc nc, row_check cc nc r (m idx) = ([unresolvedMsg r], [])) ∧
    unresolvedMsg r ∈ (validate_deck rows m).issues := by
  constructor
  · intro cc nc; rw [h2]; rfl
  · exact mem_issues_of_row rows m idx r (unresolvedMsg r) h1 (by rw [h2]; simp [row_check])

/-- C10 witness: a concrete single-row deck whose row is unresolved. -/
theorem unresolved_row_rule_witness :
    unresolvedMsg { name := "Llanowar Elves" } ∈
      (validate_deck [{ name := "Llanowar Elves" }] (fun _ => none)).issues :=
  (unresolved_row_rule [{ name := "Llanowar Elves" }] (fun _ => none) 0
    { name := "Llanowar Elves" } (by rfl) (by rfl)).2

/-- C9: the legality classification of a resolved card: status "banned" yields
the blocking issue containing the card's name and no warning; a status other
than "banned", "legal" and "restricted" (including an absent one) yields only
the non-blocking warning citing the status; "legal" and "restricted" yield
neither. The issue respectively warning lands in the validator's output. -/
theorem legality_classification_rule (rows : List CsvRow) (m : Nat → Option Card)
    (idx : Nat) (r : CsvRow) (c : Card)
    (h1 : rows.get? idx = some r) (h2 : m idx = some c) :
    (dictGet c.legalities "commander" = some "banned" →
      legality_check c = ([bannedMsg c.name], []) ∧
      bannedMsg c.name ∈ (validate_deck rows m).issues ∧
      strContains (bannedMsg c.name) c.name = true) ∧
    (dictGet c.legalities "commander" ≠ some "banned" →
      dictGet c.legalities "commander" ≠ some "legal" →
      dictGet c.legalities "commander" ≠ some "restricted" →
      legality_check c = ([], [notLegalMsg (dictGet c.legalities "commander") c.name]) ∧
      notLegalMsg (dictGet c.legalities "commander") c.name ∈
        (validate_deck rows m).warnings) ∧
    (dictGet c.legalities "commander" = some "legal" ∨
        dictGet c.legalities "commander" = some "restricted" →
      legality_check c = ([], [])) := by
  refine ⟨?_, ?_, ?_⟩
  · intro h
    have hlc : legality_check c = ([bannedMsg c.name], []) := by
      simp [legality_check, h]
    refine ⟨hlc, ?_, strContains_append_right "BANNED in Commander: " c.name⟩
    refine mem_issues_of_row rows m idx r (bannedMsg c.name) h1 ?_
    rw [h2]
    simp [row_check, hlc]
  · intro hb hl hr
    have hlc : legality_check c =
        ([], [notLegalMsg (dictGet c.legalities "commander") c.name]) := by
      simp [legality_check, hb, hl, hr]
    refine ⟨hlc, ?_⟩
    refine mem_warnings_of_row rows m idx r _ h1 ?_
    rw [h2]
    simp [row_check, hlc]
  · rintro (h | h) <;> simp [legality_check, h]

/-- A concrete banned card for witnesses. -/
def bannedCard : Card :=
  { name := "Shahrazad"
    set := none
    collector_number := none
    type_line := "Sorcery"
    color_identity := ["W"]
    legalities := [("commander", "banned")]
    oracle_text := ""
    keywords := []
    is_basic_land := false }

/-- A concrete not-legal card for witnesses. -/
def notLegalCard : Card :=
  { name := "Spatial Binding"
    set := none
    collector_number := none
    type_line := "Sorcery"
    color_identity := []
    legalities := [("commander", "not_legal")]
    oracle_text := ""
    keywords := []
    is_basic_land := false }

/-- C9 witness: a banned card yields the blocking issue, and a "not_legal"
card yields the warning, on concrete one-row decks. -/
theorem legality_classification_rule_witness :
    (legality_check bannedCard = ([bannedMsg "Shahrazad"], [])) ∧
    (legality_check notLegalCard = ([], [notLegalMsg (some "not_legal") "Spatial Binding"])) := by
  constructor
  · exact ((legality_classification_rule [{ name := "Shahrazad" }]
      (fun j => if j = 0 then some bannedCard else none)
      0 { name := "Shahrazad" } bannedCard (by rfl) (by rfl)).1 (by decide)).1
  · exact ((legality_classification_rule [{ name := "Spatial Binding" }]
      (fun j => if j = 0 then some notLegalCard else none)
      0 { name := "Spatial Binding" } notLegalCard (by rfl) (by rfl)).2.1
      (by decide) (by decide) (by decide)).1

/-- C1: for a resolved card that is neither a basic land nor in the
unlimited-copies allow-list, the singleton check emits the singleton issue
naming the card and its total row count precisely when that total exceeds 1,
and the issue then appears in the validator's issue list; basic lands and
allow-listed names make the singleton check emit nothing regardless of count. -/
theorem singleton_rule (rows : List CsvRow) (m : Nat → Option Card)
    (idx : Nat) (r : CsvRow) (c : Card)
    (h1 : rows.get? idx = some r) (h2 : m idx = some c) :
    (c.is_basic_land = false → c.name ∉ ALLOWED_DUP_EXCEPTIONS →
      (singleton_check (name_count rows) c =
          [singletonMsg c.name (name_count rows c.name)] ↔
        1 < name_count rows c.name) ∧
      (1 < name_count rows c.name →
        singletonMsg c.name (name_count rows c.name) ∈ (validate_deck rows m).issues)) ∧
    (c.is_basic_land = true ∨ c.name ∈ ALLOWED_DUP_EXCEPTIONS →
      ∀ nc : String → Nat, singleton_check nc c = []) := by
  constructor
  · intro hb ha
    have hsc : singleton_check (name_count rows) c =
        if 1 < name_count rows c.name then
          [singletonMsg c.name (name_count rows c.name)] else [] := by
      simp [singleton_check, hb, ha]
    constructor
    · by_cases h : 1 < name_count rows c.name <;> simp [hsc, h]
    · intro h
      refine mem_issues_of_row rows m idx r _ h1 ?_
      rw [h2]
      simp only [row_check, List.mem_append]
      exact Or.inl (Or.inr (by simp [hsc, h]))
  · intro h nc
    rcases h with h | h <;> simp [singleton_check, h]

/-- A concrete nonland singleton card for witnesses. -/
def solRingCard : Card :=
  { name := "Sol Ring"
    set := none
    collector_number := none
    type_line := "Artifact"
    color_identity := []
    legalities := [("commander", "legal")]
    oracle_text := ""
    keywords := []
    is_basic_land := false }

/-- C1 witness: two copies of a nonland, non-exception card trigger the
singleton issue. -/
theorem singleton_rule_witness :
    singletonMsg "Sol Ring" (name_count [{ name := "Sol Ring", quantity := 2 }] "Sol Ring") ∈
      (validate_deck [{ name := "Sol Ring", quantity := 2 }]
        (fun j => if j = 0 then some solRingCard else none)).issues := by
  exact ((singleton_rule [{ name := "Sol Ring", quantity := 2 }]
    (fun j => if j = 0 then some solRingCard else none)
    0 { name := "Sol Ring", quantity := 2 } solRingCard
    (by rfl) (by rfl)).1 (by decide) (by decide)).2 (by decide)

/-- C4: once the established commander color identity is non-empty, the
color-identity check on a resolved card emits the containment issue naming the
card, its colors and the commander identity precisely when some of the card's
colors lies outside the commander identity, and the issue then appears in the
validator's issue list; with an empty commander identity the check emits
nothing for any card. -/
theorem color_identity_rule (rows : List CsvRow) (m : Nat → Option Card)
    (idx : Nat) (r : CsvRow) (c : Card)
    (h1 : rows.get? idx = some r) (h2 : m idx = some c) :
    ((validate_deck rows m).commander_color_id ≠ [] →
      (color_check (validate_deck rows m).commander_color_id c =
          [colorMsg c.name (pySortedSet c.color_identity)
            (validate_deck rows m).commander_color_id] ↔
        ¬ ∀ x ∈ c.color_identity, x ∈ (validate_deck rows m).commander_color_id) ∧
      (¬ (∀ x ∈ c.color_identity, x ∈ (validate_deck rows m).commander_color_id) →
        colorMsg c.name (pySortedSet c.color_identity)
            (validate_deck rows m).commander_color_id ∈
          (validate_deck rows m).issues)) ∧
    ((validate_deck rows m).commander_color_id = [] →
      ∀ c' : Card, color_check (validate_deck rows m).commander_color_id c' = []) := by
  have hcc : ∀ (cc : List String) (b : Card), cc ≠ [] →
      color_check cc b =
        if ∀ x ∈ b.color_identity, x ∈ cc then []
        else [colorMsg b.name (pySortedSet b.color_identity) cc] := by
    intro cc b hne
    by_cases hall : ∀ x ∈ b.color_identity, x ∈ cc
    · rw [if_pos hall]
      have hb : (b.color_identity.all fun x => decide (x ∈ cc)) = true := by
        simp only [List.all_eq_true, decide_eq_true_eq]; exact hall
      simp [color_check, hne, hb]
    · rw [if_neg hall]
      have hb : (b.color_identity.all fun x => decide (x ∈ cc)) = false := by
        cases hx : (b.color_identity.all fun x => decide (x ∈ cc)) with
        | false => rfl
        | true =>
            exact absurd (by simpa [List.all_eq_true] using hx) hall
      simp [color_check, hne, hb]
  constructor
  · intro hne
    constructor
    · by_cases hall : ∀ x ∈ c.color_identity, x ∈ (validate_deck rows m).commander_color_id
      · simp [hcc _ c hne, hall]
      · simp [hcc _ c hne, hall]
    · intro hall
      refine mem_issues_of_row rows m idx r _ h1 ?_
      rw [h2]
      simp only [row_check, List.mem_append]
      refine Or.inr ?_
      have := hcc (validate_deck rows m).commander_color_id c hne
      rw [validate_color_id_def] at this hall ⊢
      simp [this, hall]
  · intro he c'
    simp [color_check, he]

/-- A concrete legendary commander with red-green identity for witnesses. -/
def gruulCommander : Card :=
  { name := "Radha, Heart of Keld"
    set := none
    collector_number := none
    type_line := "Legendary Creature — Elf Warrior"
    color_identity := ["R", "G"]
    legalities := [("commander", "legal")]
    oracle_text := ""
    keywords := []
    is_basic_land := false }

/-- A concrete mono-blue card for witnesses. -/
def blueCard : Card :=
  { name := "Counterspell"
    set := none
    collector_number := none
    type_line := "Instant"
    color_identity := ["U"]
    legalities := [("commander", "legal")]
    oracle_text := ""
    keywords := []
    is_basic_land := false }

/-- C4 witness: a blue card in a red-green commander deck triggers the
color-identity issue. -/
theorem color_identity_rule_witness :
    colorMsg "Counterspell" (pySortedSet ["U"])
        (validate_deck
          [{ name := "Radha, Heart of Keld", is_commander := true },
            { name := "Counterspell" }]
          (fun j => if j = 0 then some gruulCommander
            else if j = 1 then some blueCard else none)).commander_color_id ∈
      (validate_deck
        [{ name := "Radha, Heart of Keld", is_commander := true },
          { name := "Counterspell" }]
        (fun j => if j = 0 then some gruulCommander
          else if j = 1 then some blueCard else none)).issues := by
  exact ((color_identity_rule
    [{ name := "Radha, Heart of Keld", is_commander := true }, { name := "Counterspell" }]
    (fun j => if j = 0 then some gruulCommander
      else if j = 1 then some blueCard else none)
    1 { name := "Counterspell" } blueCard (by rfl) (by rfl)).1
    (by decide)).2 (by decide)

theorem elig_false_iff (c : Card) :
    _is_eligible_commander c = false ↔
      (strContains c.type_line "Legendary Creature" = false ∧
        strContains (strLower c.oracle_text) "can be your commander" = false) := by
  unfold _is_eligible_commander
  cases h1 : strContains c.type_line "Legendary Creature" <;>
    cases h2 : strContains (strLower c.oracle_text) "can be your commander" <;> simp

/-- C2: the validator's commander-cardinality outcome. Zero detected
commanders: the no-commander issue and empty color identity. One commander:
the eligibility issue exactly when its type line lacks "Legendary Creature"
and its oracle text lacks "can be your commander"; color identity is that
card's. Two commanders: the partner issue exactly when at least one of them
lacks `_has_partner`; color identity is the union. More than two: the
too-many issue and empty color identity. -/
theorem commander_cardinality_rule (rows : List CsvRow) (m : Nat → Option Card) :
    (detect_commanders rows m = [] →
      noCommanderMsg ∈ (validate_deck rows m).issues ∧
      (validate_deck rows m).commander_color_id = []) ∧
    (∀ c, detect_commanders rows m = [c] →
      ((commander_block (detect_commanders rows m)).1 = [eligMsg c.name] ↔
        (strContains c.type_line "Legendary Creature" = false ∧
          strContains (strLower c.oracle_text) "can be your commander" = false)) ∧
      (_is_eligible_commander c = false → eligMsg c.name ∈ (validate_deck rows m).issues) ∧
      (_is_eligible_commander c = true → (commander_block (detect_commanders rows m)).1 = []) ∧
      (validate_deck rows m).commander_color_id = pySortedSet c.color_identity ∧
      (∀ x, x ∈ (validate_deck rows m).commander_color_id ↔ x ∈ c.color_identity)) ∧
    (∀ c1 c2, detect_commanders rows m = [c1, c2] →
      ((commander_block (detect_commanders rows m)).1 = [partnerMsg] ↔
        (_has_partner c1 = false ∨ _has_partner c2 = false)) ∧
      (_has_partner c1 = false ∨ _has_partner c2 = false →
        partnerMsg ∈ (validate_deck rows m).issues) ∧
      (_has_partner c1 = true → _has_partner c2 = true →
        (commander_block (detect_commanders rows m)).1 = []) ∧
      (validate_deck rows m).commander_color_id =
        pySortedSet (c1.color_identity ++ c2.color_identity) ∧
      (∀ x, x ∈ (validate_deck rows m).commander_color_id ↔
        x ∈ c1.color_identity ∨ x ∈ c2.color_identity)) ∧
    (2 < (detect_commanders rows m).length →
      tooManyMsg ∈ (validate_deck rows m).issues ∧
      (validate_deck rows m).commander_color_id = []) := by
  refine ⟨?_, ?_, ?_, ?_⟩
  · intro h
    constructor
    · rw [validate_issues_def, h]
      exact List.mem_append_left _ (List.mem_append_left _ (by simp [commander_block]))
    · rw [validate_color_id_def, h]; rfl
  · intro c h
    refine ⟨?_, ?_, ?_, ?_, ?_⟩
    · rw [h]
      cases he : _is_eligible_commander c with
      | false =>
          have hx := (elig_false_iff c).mp he
          simp [commander_block, he, hx]
      | true =>
          have hx : ¬ (strContains c.type_line "Legendary Creature" = false ∧
              strContains (strLower c.oracle_text) "can be your commander" = false) := by
            intro hc
            have hf := (elig_false_iff c).mpr hc
            rw [he] at hf
            exact Bool.noConfusion hf
          simp [commander_block, he, hx]
    · intro he
      rw [validate_issues_def, h]
      refine List.mem_append_left _ (List.mem_append_left _ ?_)
      simp [commander_block, he]
    · intro he
      rw [h]; simp [commander_block, he]
    · rw [validate_color_id_def, h]; rfl
    · intro x
      rw [validate_color_id_def, h]
      simp [commander_block, mem_pySortedSet]
  · intro c1 c2 h
    refine ⟨?_, ?_, ?_, ?_, ?_⟩
    · rw [h]
      cases hp1 : _has_partner c1 <;> cases hp2 : _has_partner c2 <;>
        simp [commander_block, hp1, hp2]
    · intro hp
      rw [validate_issues_def, h]
      refine List.mem_append_left _ (List.mem_append_left _ ?_)
      rcases hp with hp | hp <;> simp [commander_block, hp]
    · intro hp1 hp2
      rw [h]; simp [commander_block, hp1, hp2]
    · rw [validate_color_id_def, h]; rfl
    · intro x
      rw [validate_color_id_def, h]
      simp [commander_block, mem_pySortedSet]
  · intro h
    obtain ⟨a, b, c3, t, hcs⟩ : ∃ a b c3 t, detect_commanders rows m = a :: b :: c3 :: t := by
      rcases hd : detect_commanders rows m with _ | ⟨a, _ | ⟨b, _ | ⟨c3, t⟩⟩⟩ <;>
        rw [hd] at h <;> simp at h
      exact ⟨a, b, c3, t, rfl⟩
    constructor
    · rw [validate_issues_def, hcs]
      exact List.mem_append_left _ (List.mem_append_left _ (by simp [commander_block]))
    · rw [validate_color_id_def, hcs]; rfl

/-- C2 witness: a deck with no commander flags gets the no-commander issue,
and a deck with one eligible commander gets its sorted color identity. -/
theorem commander_cardinality_rule_witness :
    (noCommanderMsg ∈ (validate_deck [{ name := "Forest" }] (fun _ => none)).issues) ∧
    ((validate_deck [{ name := "Radha, Heart of Keld", is_commander := true }]
        (fun j => if j = 0 then some gruulCommander else none)).commander_color_id =
      pySortedSet ["R", "G"]) := by
  constructor
  · exact ((commander_cardinality_rule [{ name := "Forest" }] (fun _ => none)).1 (by rfl)).1
  · exact ((commander_cardinality_rule
      [{ name := "Radha, Heart of Keld", is_commander := true }]
      (fun j => if j = 0 then some gruulCommander else none)).2.1
      gruulCommander (by rfl)).2.2.2.1

/-- The matcher predicate the greedy scan applies at one row position:
the row is not yet resolved and the candidate matches it. -/
def greedy_pred (sets : List SetInfo) (rows : List CsvRow) (result : Nat → Option Card)
    (obj : ScryObj) (idx : Nat) : Bool :=
  (result idx).isNone && _row_matches_card sets (rows.getD idx dummyRow) obj

theorem greedy_step_first_fit (sets : List SetInfo) (rows : List CsvRow) (obj : ScryObj) :
    ∀ (unresolved : List Nat) (result : Nat → Option Card),
      greedy_step sets rows obj unresolved result =
        match unresolved.find? (greedy_pred sets rows result obj) with
        | some idx => fun j => if j = idx then some (Card.from_scryfall obj) else result j
        | none => result := by
  intro unresolved
  induction unresolved with
  | nil => intro result; rfl
  | cons idx rest ih =>
      intro result
      cases hmi : result idx with
      | some c =>
          have hp : ¬ greedy_pred sets rows result obj idx = true := by
            simp [greedy_pred, hmi]
          rw [List.find?_cons_of_neg _ hp]
          have hsome : (result idx).isSome = true := by simp [hmi]
          simp only [greedy_step, hsome, if_true]
          exact ih result
      | none =>
          by_cases hm : _row_matches_card sets (rows.getD idx dummyRow) obj = true
          · have hp : greedy_pred sets rows result obj idx = true := by
              simp only [greedy_pred, hmi, Option.isNone_none, Bool.true_and]
              exact hm
            rw [List.find?_cons_of_pos _ hp]
            have hsome : (result idx).isSome = false := by simp [hmi]
            simp only [greedy_step, hsome, Bool.false_eq_true, if_false, hm, if_true]
          · have hp : ¬ greedy_pred sets rows result obj idx = true := by
              simp only [greedy_pred, hmi, Option.isNone_none, Bool.true_and]
              exact hm
            rw [List.find?_cons_of_neg _ hp]
            have hsome : (result idx).isSome = false := by simp [hmi]
            simp only [greedy_step, hsome, Bool.false_eq_true, if_false, hm]
            exact ih result

theorem greedy_step_preserves (sets : List SetInfo) (rows : List CsvRow) (obj : ScryObj) :
    ∀ (unresolved : List Nat) (result : Nat → Option Card) (idx : Nat) (c : Card),
      result idx = some c → greedy_step sets rows obj unresolved result idx = some c := by
  intro unresolved
  induction unresolved with
  | nil => intro result idx c h; exact h
  | cons i rest ih =>
      intro result idx c h
      by_cases hsome : (result i).isSome = true
      · simp only [greedy_step, hsome, if_true]
        exact ih result idx c h
      · simp only [greedy_step, hsome, Bool.false_eq_true, if_false]
        by_cases hm : _row_matches_card sets (rows.getD i dummyRow) obj = true
        · simp only [hm, if_true]
          have hne : idx ≠ i := by
            intro he
            rw [he] at h
            rw [h] at hsome
            simp at hsome
          simp [hne, h]
        · simp only [hm, if_false]
          exact ih result idx c h

theorem greedy_batch_preserves (sets : List SetInfo) (rows : List CsvRow) :
    ∀ (objs : List ScryObj) (unresolved : List Nat) (result : Nat → Option Card)
      (idx : Nat) (c : Card), result idx = some c →
      greedy_batch sets rows unresolved result objs idx = some c := by
  intro objs
  induction objs with
  | nil => intro unresolved result idx c h; exact h
  | cons obj rest ih =>
      intro unresolved result idx c h
      have hstep := greedy_step_preserves sets rows obj unresolved result idx c h
      exact ih unresolved _ idx c hstep

theorem find?_range'_minimal (p : Nat → Bool) :
    ∀ (k i idx : Nat), (List.range' i k).find? p = some idx →
      p idx = true ∧ ∀ j ∈ List.range' i k, j < idx → p j = false := by
  intro k
  induction k with
  | zero => intro i idx h; simp at h
  | succ n ih =>
      intro i idx h
      rw [List.range'_succ i n 1] at h
      by_cases hp : p i = true
      · rw [List.find?_cons_of_pos _ hp] at h
        cases h
        refine ⟨hp, ?_⟩
        intro j hj hlt
        rw [List.range'_succ i n 1] at hj
        rcases List.mem_cons.mp hj with hj | hj
        · omega
        · have := (List.mem_range'_1.mp hj).1
          omega
      · rw [List.find?_cons_of_neg _ hp] at h
        have := ih (i + 1) idx h
        refine ⟨this.1, ?_⟩
        intro j hj hlt
        rw [List.range'_succ i n 1] at hj
        rcases List.mem_cons.mp hj with hj | hj
        · cases hj
          simpa using hp
        · exact this.2 j hj hlt

/-- C3: the greedy matcher of `fetch_cards`. For each returned card object it
assigns the card to the first not-yet-resolved row position the matcher
accepts (if any), leaving everything else unchanged; on the ascending batch
index range the chosen position is minimal among all accepting unresolved
positions; an already-resolved row is never reassigned by a whole batch; and
the batch assignment is a pure function, so identical inputs give identical
pairings. -/
theorem greedy_matcher_rule (sets : List SetInfo) (rows : List CsvRow) :
    (∀ (obj : ScryObj) (unresolved : List Nat) (result : Nat → Option Card),
      greedy_step sets rows obj unresolved result =
        match unresolved.find? (greedy_pred sets rows result obj) with
        | some idx => fun j => if j = idx then some (Card.from_scryfall obj) else result j
        | none => result) ∧
    (∀ (i k : Nat) (obj : ScryObj) (result : Nat → Option Card) (idx : Nat),
      (batch_indices rows i k).find? (greedy_pred sets rows result obj) = some idx →
        (result idx).isNone = true ∧
        _row_matches_card sets (rows.getD idx dummyRow) obj = true ∧
        ∀ j ∈ batch_indices rows i k, j < idx →
          greedy_pred sets rows result obj j = false) ∧
    (∀ (objs : List ScryObj) (unresolved : List Nat) (result : Nat → Option Card)
      (idx : Nat) (c : Card), result idx = some c →
      greedy_batch sets rows unresolved result objs idx = some c) ∧
    (∀ (objs : List ScryObj) (unresolved : List Nat) (result : Nat → Option Card),
      greedy_batch sets rows unresolved result objs =
        greedy_batch sets rows unresolved result objs) := by
  refine ⟨greedy_step_first_fit sets rows, ?_, greedy_batch_preserves sets rows, ?_⟩
  · intro i k obj result idx h
    have := find?_range'_minimal (greedy_pred sets rows result obj) _ _ _ h
    have hpidx := this.1
    simp only [greedy_pred, Bool.and_eq_true] at hpidx
    exact ⟨hpidx.1, hpidx.2, this.2⟩
  · intro objs unresolved result; rfl

/-- C3 witness: an already-resolved row keeps its card across a batch run. -/
theorem greedy_matcher_rule_witness :
    greedy_batch [] [{ name := "Sol Ring" }] [0]
      (fun j => if j = 0 then some solRingCard else none)
      [{ name := some "Sol Ring" }] 0 = some solRingCard :=
  (greedy_matcher_rule [] [{ name := "Sol Ring" }]).2.2.1
    [{ name := some "Sol Ring" }] [0]
    (fun j => if j = 0 then some solRingCard else none) 0 solRingCard (by rfl)

/-- C7: the matcher equals the priority disjunction of its three rules —
external-identifier equality; resolved set code and collector number both
present and equal as strings; case-insensitive name equality with the set
constraint applied only when the row resolves to a set code — and a row with
a truthy external identifier matches any candidate bearing that identifier. -/
theorem matcher_priority_rule (sets : List SetInfo) (row : CsvRow) (card_obj : ScryObj) :
    (_row_matches_card sets row card_obj =
      ((optTruthy row.scryfall_id && card_obj.id == row.scryfall_id) ||
        (optTruthy (resolve_set_code sets row.set_input) && optTruthy row.card_number &&
          card_obj.set == resolve_set_code sets row.set_input &&
          pyStr card_obj.collector_number == pyStr row.card_number) ||
        ((strLower (card_obj.name.getD "") == strLower row.name) &&
          (!optTruthy (resolve_set_code sets row.set_input) ||
            card_obj.set == resolve_set_code sets row.set_input)))) ∧
    (optTruthy row.scryfall_id = true → card_obj.id = row.scryfall_id →
      _row_matches_card sets row card_obj = true) := by
  constructor
  · cases ha : (optTruthy row.scryfall_id && card_obj.id == row.scryfall_id) <;>
      cases hb : optTruthy (resolve_set_code sets row.set_input) <;>
      cases hc : optTruthy row.card_number <;>
      cases hd : (card_obj.set == resolve_set_code sets row.set_input) <;>
      cases he : (pyStr card_obj.collector_number == pyStr row.card_number) <;>
      cases hf : (strLower (card_obj.name.getD "") == strLower row.name) <;>
      simp [_row_matches_card, ha, hb, hc, hd, he, hf]
  · intro h1 h2
    simp [_row_matches_card, h1, h2]

/-- C7 witness: an identifier match wins despite a name and set mismatch. -/
theorem matcher_priority_rule_witness :
    _row_matches_card []
      { name := "Wrong Name", set_input := some "wrongset",
        scryfall_id := some "deadbeef" }
      { id := some "deadbeef", name := some "Completely Different" } = true :=
  (matcher_priority_rule []
    { name := "Wrong Name", set_input := some "wrongset", scryfall_id := some "deadbeef" }
    { id := some "deadbeef", name := some "Completely Different" }).2
    (by decide) (by decide)

/-- C8: the identifier builder emits one key per row, chosen by the priority
id → (set, number) → (name, set) → (name); set-hint resolution takes a 3–5
character alphanumeric token directly as a lowercased set code, otherwise
matches the sets directory first by exact case-insensitive name, then by
case-insensitive substring containment, first match in list order, and
yields nothing when no entry matches. -/
theorem identifier_priority_rule (sets : List SetInfo) :
    (∀ rows : List CsvRow, build_identifiers sets rows = rows.map (build_identifier sets)) ∧
    (∀ (rows : List CsvRow) (idx : Nat) (r : CsvRow), rows.get? idx = some r →
      (build_identifiers sets rows).get? idx = some (build_identifier sets r)) ∧
    (∀ r : CsvRow, optTruthy r.scryfall_id = true →
      build_identifier sets r = Identifier.id (r.scryfall_id.getD "")) ∧
    (∀ (r : CsvRow) (sc : String), optTruthy r.scryfall_id = false →
      resolve_set_code sets r.set_input = some sc → sc ≠ "" →
      (optTruthy r.card_number = true →
        build_identifier sets r = Identifier.setNum sc (r.card_number.getD "")) ∧
      (optTruthy r.card_number = false →
        build_identifier sets r = Identifier.nameSet r.name sc)) ∧
    (∀ r : CsvRow, optTruthy r.scryfall_id = false →
      optTruthy (resolve_set_code sets r.set_input) = false →
      build_identifier sets r = Identifier.nameOnly r.name) ∧
    (∀ s : String, s ≠ "" → 2 < (pyStrip s).length → (pyStrip s).length ≤ 5 →
      (pyStrip s).toList.all Char.isAlphanum = true → strContains (pyStrip s) " " = false →
      resolve_set_code sets (some s) = some (strLower (pyStrip s))) ∧
    (∀ (s : String) (st : SetInfo), s ≠ "" →
      ¬(2 < (pyStrip s).length ∧ (pyStrip s).length ≤ 5 ∧
        (pyStrip s).toList.all Char.isAlphanum = true ∧ strContains (pyStrip s) " " = false) →
      sets.find? (fun st => strLower (st.name.getD "") == strLower (pyStrip s)) = some st →
      resolve_set_code sets (some s) = st.code) ∧
    (∀ (s : String) (st : SetInfo), s ≠ "" →
      ¬(2 < (pyStrip s).length ∧ (pyStrip s).length ≤ 5 ∧
        (pyStrip s).toList.all Char.isAlphanum = true ∧ strContains (pyStrip s) " " = false) →
      sets.find? (fun st => strLower (st.name.getD "") == strLower (pyStrip s)) = none →
      sets.find? (fun st => strContains (strLower (st.name.getD "")) (strLower (pyStrip s))) =
        some st →
      resolve_set_code sets (some s) = st.code) ∧
    (∀ s : String, s ≠ "" →
      ¬(2 < (pyStrip s).length ∧ (pyStrip s).length ≤ 5 ∧
        (pyStrip s).toList.all Char.isAlphanum = true ∧ strContains (pyStrip s) " " = false) →
      sets.find? (fun st => strLower (st.name.getD "") == strLower (pyStrip s)) = none →
      sets.find? (fun st => strContains (strLower (st.name.getD "")) (strLower (pyStrip s))) =
        none →
      resolve_set_code sets (some s) = none) := by
  have htruthy : ∀ s : String, s ≠ "" → ¬ (optTruthy (some s) = false) := by
    intro s hs hc
    simp [optTruthy, hs] at hc
  refine ⟨fun rows => rfl, ?_, ?_, ?_, ?_, ?_, ?_, ?_, ?_⟩
  · intro rows idx r h
    rw [build_identifiers, List.get?_map, h]
    rfl
  · intro r h
    simp [build_identifier, h]
  · intro r sc h hres hsc
    have hsc' : optTruthy (some sc) = true := by simp [optTruthy, hsc]
    constructor
    · intro hn
      simp [build_identifier, h, hres, hsc', hn]
    · intro hn
      simp [build_identifier, h, hres, hsc', hn]
  · intro r h hres
    simp [build_identifier, h, hres]
  · intro s hs h1 h2 h3 h4
    simp only [resolve_set_code, if_neg (htruthy s hs), Option.getD_some]
    rw [if_pos ⟨h1, h2, h3, h4⟩]
  · intro s st hs htok hfind
    simp only [resolve_set_code, if_neg (htruthy s hs), Option.getD_some]
    rw [if_neg htok, hfind]
  · intro s st hs htok hfind1 hfind2
    simp only [resolve_set_code, if_neg (htruthy s hs), Option.getD_some]
    rw [if_neg htok, hfind1, hfind2]
  · intro s hs htok hfind1 hfind2
    simp only [resolve_set_code, if_neg (htruthy s hs), Option.getD_some]
    rw [if_neg htok, hfind1, hfind2]

/-- C8 witness: a bare 3-letter token resolves directly to a set code, and a
row with only a name gets the name-only identifier. -/
theorem identifier_priority_rule_witness :
    resolve_set_code [] (some "ZNR") = some (strLower "ZNR") ∧
    build_identifier [] { name := "Forest" } = Identifier.nameOnly "Forest" := by
  constructor
  · exact (identifier_priority_rule []).2.2.2.2.2.1 "ZNR" (by decide) (by decide)
      (by decide) (by decide) (by decide)
  · exact (identifier_priority_rule []).2.2.2.2.1 { name := "Forest" }
      (by decide) (by decide)

/-- A row whose quantity cell does not parse as an integer (after Python's
`or "1"` coalescing) while its name is nonblank. -/
def badQty (raw : RawRow) : Prop :=
  pyStrip (raw.name_cell.getD "") ≠ "" ∧
    pyInt (pyStrip (qtyCellOrOne raw.qty_cell)) = none

theorem load_row_invalid (i : Nat) (raw : RawRow)
    (hname : pyStrip (raw.name_cell.getD "") ≠ "")
    (hq : pyInt (pyStrip (qtyCellOrOne raw.qty_cell)) = none) :
    load_row true i raw = Except.error ("Row " ++ toString i ++
      ": invalid Quantity \x27" ++ pyStrip (qtyCellOrOne raw.qty_cell) ++
      "\x27 for \x27" ++ pyStrip (raw.name_cell.getD "") ++ "\x27") := by
  simp [load_row, hname, hq]

theorem load_rows_error (raws : List RawRow) :
    ∀ i : Nat, (∃ raw ∈ raws, badQty raw) →
      ∃ e, load_rows true i raws = Except.error e := by
  induction raws with
  | nil => intro i h; simp at h
  | cons raw t ih =>
      intro i h
      obtain ⟨raw', hmem, hbad⟩ := h
      rcases List.mem_cons.mp hmem with he | hmem'
      · subst he
        refine ⟨"Row " ++ toString i ++ ": invalid Quantity \x27" ++
          pyStrip (qtyCellOrOne raw'.qty_cell) ++ "\x27 for \x27" ++
          pyStrip (raw'.name_cell.getD "") ++ "\x27", ?_⟩
        have h1 := load_row_invalid i raw' hbad.1 hbad.2
        simp only [load_rows, h1]
      · cases hlr : load_row true i raw with
        | error e => exact ⟨e, by rw [load_rows, hlr]⟩
        | ok o =>
            obtain ⟨e, he⟩ := ih (i + 1) ⟨raw', hmem', hbad⟩
            cases o with
            | none => exact ⟨e, by rw [load_rows, hlr, he]⟩
            | some r => exact ⟨e, by rw [load_rows, hlr, he]⟩

/-- C6 counterexample: a deck list with an explicit quantity of zero loads
successfully (the zero is clamped to 1), where the claim says the load must
fail. -/
theorem quantity_zero_loads :
    load_csv true [{ name_cell := some "Forest", qty_cell := some "0" }] =
      Except.ok [{ name := "Forest", quantity := 1 }] := rfl

/-- C6 (amended): a quantity cell that does not parse as an integer makes the
whole load fail with a fatal error (so no row set is produced); a quantity
that parses to `n` never fails and is clamped to `max 1 n`, so zero and
negative quantities load as 1; a missing quantity cell or column defaults
to 1. -/
theorem quantity_load_rule :
    (∀ raws : List RawRow, (∃ raw ∈ raws, badQty raw) →
      ∃ e, load_csv true raws = Except.error e) ∧
    (∀ (i : Nat) (raw : RawRow) (n : Int), pyStrip (raw.name_cell.getD "") ≠ "" →
      pyInt (pyStrip (qtyCellOrOne raw.qty_cell)) = some n →
      load_row true i raw = Except.ok (some
        { name := pyStrip (raw.name_cell.getD "")
          set_input := cellOrNone raw.set_cell
          quantity := (max 1 n).toNat
          card_number := cellOrNone raw.num_cell
          scryfall_id := cellOrNone raw.id_cell })) ∧
    (∀ (i : Nat) (raw : RawRow), pyStrip (raw.name_cell.getD "") ≠ "" →
      raw.qty_cell = none →
      load_row true i raw = Except.ok (some
        { name := pyStrip (raw.name_cell.getD "")
          set_input := cellOrNone raw.set_cell
          quantity := 1
          card_number := cellOrNone raw.num_cell
          scryfall_id := cellOrNone raw.id_cell })) ∧
    (∀ (i : Nat) (raw : RawRow), pyStrip (raw.name_cell.getD "") ≠ "" →
      load_row false i raw = Except.ok (some
        { name := pyStrip (raw.name_cell.getD "")
          set_input := cellOrNone raw.set_cell
          quantity := 1
          card_number := cellOrNone raw.num_cell
          scryfall_id := cellOrNone raw.id_cell })) := by
  refine ⟨?_, ?_, ?_, ?_⟩
  · intro raws h
    obtain ⟨e, he⟩ := load_rows_error raws 2 h
    exact ⟨e, by rw [load_csv, he]⟩
  · intro i raw n hname hq
    simp [load_row, hname, hq]
  · intro i raw hname hq
    have hq' : pyInt (pyStrip (qtyCellOrOne raw.qty_cell)) = some 1 := by
      rw [hq]; rfl
    simp [load_row, hname, hq']
  · intro i raw hname
    simp [load_row, hname]

/-- C6 witness: a non-numeric quantity fails the load, and a negative
quantity is clamped to 1. -/
theorem quantity_load_rule_witness :
    (∃ e, load_csv true [{ name_cell := some "Forest", qty_cell := some "abc" }] =
      Except.error e) ∧
    load_row true 2 { name_cell := some "Forest", qty_cell := some "-3" } =
      Except.ok (some { name := "Forest", quantity := 1 }) := by
  constructor
  · exact quantity_load_rule.1 [{ name_cell := some "Forest", qty_cell := some "abc" }]
      ⟨{ name_cell := some "Forest", qty_cell := some "abc" },
        by simp, by decide, by decide⟩
  · exact quantity_load_rule.2.1 2
      { name_cell := some "Forest", qty_cell := some "-3" } (-3)
      (by decide) (by decide)

end Deckbuilder
